/-
  Verification of the HA failover event plugin
  (src/freenas/usr/local/lib/middlewared_truenas/plugins/failover_/event_linux.py).

  The plugin is embedded shallowly: every collaborator reached through
  `self.middleware.call_sync` is modelled by a fixed environment `Env`
  describing the responses the collaborators would give during one event,
  and each method of `FailoverService` becomes a Lean function that
  returns its Python outcome (a value or a raised exception) together
  with the ordered trace of collaborator calls it performed and the
  post-state of the process-wide `failover_successful` flag.

  `run_call` (lines 91-95 of the source) wraps `call_sync` in a
  `try/except Exception` that logs and returns `None`; consequently an
  exception raised inside a collaborator call never propagates to the
  caller.  Exceptions raised directly by the plugin code itself do
  propagate and are modelled with `Except`.
-/
import Mathlib

namespace FailoverEvents

/-- One row of the `pool.query` result: the snapshot keeps `name`, `guid`
and `status`; `vol['error']` is attached later by the import loop. -/
structure Volume where
  name : String
  guid : String
  status : String
  error : Option String := none
deriving Repr, DecidableEq

/-- One row of `datastore.query('services_services')`: the keys the plugin
reads are `srv_service` and `srv_enable`. -/
structure SvcEntry where
  srv_service : String
  srv_enable : Bool
deriving Repr, DecidableEq

/-- One entry of the `core.get_jobs` answer: the plugin reads `method`
and `state`. -/
structure JobInfo where
  method : String
  state : String
deriving Repr, DecidableEq

/-- The `failover.config` answer: `disabled`, `master`, `timeout`. -/
structure FailoverConfig where
  disabled : Bool
  master : Bool
  timeout : Nat
deriving Repr, DecidableEq

/-- One row of `interface.query`: the plugin reads `id`,
`failover_critical` and `failover_group`. -/
structure Iface where
  id : String
  failover_critical : Bool
  failover_group : Nat
deriving Repr, DecidableEq

/-- The `failover.vip.check_failover_group` answer: a pair of lists,
`status[0]` (interfaces MASTER here) and `status[1]` (interfaces BACKUP
here). -/
structure GroupStatus where
  masters : List String
  backups : List String
deriving Repr, DecidableEq

/-- A collaborator call performed during one event, in program order. -/
inductive Call
  | poolQuery
  | datastoreQuery
  | failoverConfig
  | interfaceQuery
  | internalInterfaces
  | remoteConnected
  | callRemote (method : String)
  | poolQueryByName (name : String)
  | validateCall
  | checkFailoverGroup
  | getJobs
  | fencedStop
  | fencedStart (force : Bool)
  | unlinkFile (path : String)
  | createFile (path : String)
  | copyFile (src dst : String)
  | importPool (guid : String)
  | unlockDatasets (name : String)
  | serviceRestart (name : String)
  | serviceStop (name : String)
  | etcGenerate (what : String)
  | diskSyncAll
  | enclosureSyncZpool
  | alertBlock
  | alertInitialize
  | kmipConfig
  | kmipInitializeKeys
  | exportPool (name : String)
  | sysrqWrite (path : String) (value : String)
  | statusRefresh
  | setProgress (descr : String)
deriving Repr, DecidableEq

deriving instance DecidableEq for Except

/-- A Python exception escaping a plugin method. -/
inductive PyErr
  | ignoreFailoverEvent
  | zpoolExportTimeout
  | typeError (msg : String)
  | keyError (key : String)
  | unboundLocalError (name : String)
  | unsupportedOperation
deriving Repr, DecidableEq

/-- The fixed responses of every collaborator during one failover event. -/
structure Env where
  /-- `core.get_jobs` answer (before filtering on state). -/
  jobs : List JobInfo
  /-- `failover.config` answer. -/
  config : FailoverConfig
  /-- `interface.query` answer. -/
  interfaces : List Iface
  /-- `pool.query` answer, also used for the by-name queries. -/
  pools : List Volume
  /-- `datastore.query('services_services')` answer. -/
  services : List SvcEntry
  /-- `failover.internal_interfaces` answer. -/
  internal_interfaces : List String
  /-- `failover.remote_connected` answer. -/
  remote_connected : Bool
  /-- `failover.call_remote('failover.status')` answer. -/
  remote_status : String
  /-- `failover.vip.check_failover_group` answer. -/
  group_status : GroupStatus
  /-- `failover.fenced.start` exit code with `force=True`
  (`none` models a `run_call` that failed and returned `None`). -/
  fenced_start_force : Option Nat
  /-- `failover.fenced.start` exit code without `force`. -/
  fenced_start_normal : Option Nat
  /-- guid-indexed errors of `zfs.pool.import_pool`; a guid that is
  absent imports successfully. -/
  import_errors : List (String × String)
  /-- whether `/data/zfs/killcache` exists. -/
  killcache_exists : Bool
  /-- whether `/data/zfs/zpool.cache` exists. -/
  cache_file_exists : Bool
  /-- whether `/data/zfs/zpool.cache.saved` exists. -/
  cache_saved_exists : Bool
  /-- mtime of `/data/zfs/zpool.cache`. -/
  cache_mtime : Nat
  /-- mtime of `/data/zfs/zpool.cache.saved`. -/
  cache_saved_mtime : Nat
  /-- `kmip.config` answer is truthy and has `enabled` set. -/
  kmip_enabled : Bool
  /-- whether the SIGALRM deadline fires during the zpool export loop. -/
  export_times_out : Bool
  /-- how many volumes were exported before the deadline fired. -/
  exports_done_before_timeout : Nat

/-- Class attribute `failover_successful = False` (line 60). -/
def init_failover_successful : Bool := false

/-- Class attribute `critical_services` (line 64). -/
def critical_services : List String := ["iscsitarget", "cifs", "nfs", "afp"]

/-- Class attribute `zpool_killcache` (line 74). -/
def zpool_killcache : String := "/data/zfs/killcache"

/-- Class attribute `zpool_cache_file` (line 77). -/
def zpool_cache_file : String := "/data/zfs/zpool.cache"

/-- Class attribute `zpool_cache_file_saved` (line 81). -/
def zpool_cache_file_saved : String := "/data/zfs/zpool.cache.saved"

/-- Class attribute `watchdog_alert_file` (line 85). -/
def watchdog_alert_file : String := "/data/sentinels/.watchdog-alert"

/-- Class attribute `zpool_export_timeout = 4` seconds (line 89). -/
def zpool_export_timeout : Nat := 4

/-- Boolean list-prefix test. -/
def prefixB : List Char → List Char → Bool
  | [], _ => true
  | _ :: _, [] => false
  | a :: as, b :: bs => a == b && prefixB as bs

/-- Boolean list-infix test. -/
def infixB : List Char → List Char → Bool
  | n, [] => n.isEmpty
  | n, b :: bs => prefixB n (b :: bs) || infixB n bs

/-- Python substring containment `needle in haystack` on strings. -/
def substrB (needle haystack : String) : Bool :=
  infixB needle.data haystack.data

/-- The filter argument of the `core.get_jobs` call inside `validate`
(lines 176-182).  In the source the two filter tuples are juxtaposed
without a separating comma, so Python evaluates
`('method', '=', 'failover.events.vrrp_master')('method', '=',
'failover.events.vrrp_backup')`: a call on a tuple, which raises
`TypeError` while the argument list is being built, before
`core.get_jobs` is reached. -/
def validateFilterArg : Except PyErr (List (String × String × String)) :=
  .error (.typeError "tuple object is not callable")

/-- The loop over RUNNING jobs of `validate` (lines 186-201): a RUNNING
`vrrp_master` job rejects an incoming MASTER or forcetakeover event, a
RUNNING `vrrp_backup` job rejects an incoming BACKUP event. -/
def validateLoop : List JobInfo → String → Except PyErr Unit
  | [], _ => .ok ()
  | i :: rest, ev =>
    if i.method == "failover.events.vrrp_master"
        && (ev == "MASTER" || ev == "forcetakeover") then
      .error .ignoreFailoverEvent
    else if i.method == "failover.events.vrrp_backup" && ev == "BACKUP" then
      .error .ignoreFailoverEvent
    else validateLoop rest ev

/-- `FailoverService.validate` (lines 155-203).  Building the
`core.get_jobs` filter raises `TypeError` (see `validateFilterArg`), so
the job query and the rejection loop below it are never reached. -/
def validate (env : Env) (_ifname ev : String) : Except PyErr Unit := do
  let _filters ← validateFilterArg
  let current_events := env.jobs.filter (fun i => i.state == "RUNNING")
  validateLoop current_events ev

/-- A baseline environment for concrete evaluations: one healthy pool,
one critical interface, no running jobs, HA enabled, fencing succeeds. -/
def envBase : Env where
  jobs := []
  config := { disabled := false, master := false, timeout := 30 }
  interfaces := [{ id := "em0", failover_critical := true, failover_group := 1 }]
  pools := [{ name := "tank", guid := "g1", status := "ONLINE" }]
  services := []
  internal_interfaces := []
  remote_connected := false
  remote_status := "BACKUP"
  group_status := { masters := [], backups := [] }
  fenced_start_force := some 0
  fenced_start_normal := some 0
  import_errors := []
  killcache_exists := false
  cache_file_exists := false
  cache_saved_exists := false
  cache_mtime := 0
  cache_saved_mtime := 0
  kmip_enabled := false
  export_times_out := false
  exports_done_before_timeout := 0

/-- Environment in which a MASTER transition job is currently RUNNING. -/
def envRunningMaster : Env :=
  { envBase with
    jobs := [{ method := "failover.events.vrrp_master", state := "RUNNING" }] }

/-- C1: the claim says that with a MASTER transition RUNNING, a MASTER
(or forcetakeover) event makes `validate` fail with the ignore
exception.  In the source the `core.get_jobs` filter list is missing a
comma between its two tuples, so `validate` raises
`TypeError: tuple object is not callable` on every invocation — it
never inspects the running jobs and never raises the ignore exception.
This theorem evaluates the code at the failing input. -/
theorem C1_validate_raises_typeerror :
    validate envRunningMaster "em0" "MASTER"
        = .error (.typeError "tuple object is not callable")
      ∧ validate envRunningMaster "em0" "MASTER"
        ≠ .error .ignoreFailoverEvent
      ∧ validate envRunningMaster "em0" "BACKUP"
        ≠ .error .ignoreFailoverEvent := by
  refine ⟨rfl, by decide, by decide⟩

/-- Outcome of one `vrrp_master`/`vrrp_backup` job body: its Python
result (`.error e` when the body raised `e`, `.ok v` when it returned
`v`), the last value passed to `job.set_result`, the collaborator call
trace, and the post-state of `failover_successful`. -/
structure JobOut where
  result : Except PyErr Bool
  jobResult : Option String
  trace : List Call
  flag : Bool
deriving Repr, DecidableEq

/-- Python truthiness of the `run_call('failover.fenced.start', ...)`
result: `None` (a failed `run_call`) and `0` are falsy. -/
def fenced_truthy : Option Nat → Bool
  | none => false
  | some n => n != 0

/-- Cache-file bookkeeping of `vrrp_master` (lines 371-392): all
filesystem errors there are suppressed, so it contributes only trace
entries. -/
def cache_steps (env : Env) : List Call :=
  (if env.killcache_exists then
    [.unlinkFile zpool_cache_file, .unlinkFile zpool_cache_file_saved]
   else [.createFile zpool_killcache])
  ++ (if env.cache_saved_exists && env.cache_file_exists
        && decide (env.cache_saved_mtime < env.cache_mtime) then
        [.copyFile zpool_cache_file zpool_cache_file_saved]
      else [])

/-- `env.import_errors` lookup by guid. -/
def import_error_of : List (String × String) → String → Option String
  | [], _ => none
  | (k, v) :: rest, g => if k == g then some v else import_error_of rest g

/-- The import loop of `vrrp_master` (lines 397-422): every volume is
attempted (`continue` on failure); a failing volume is appended to
`failed` with its error; a successful import is followed by the
encrypted-dataset unlock, whose own failures are only logged. -/
def import_volumes (env : Env) : List Volume → List Call × List Volume
  | [] => ([], [])
  | vol :: rest =>
    let (tr, failed) := import_volumes env rest
    match import_error_of env.import_errors vol.guid with
    | some err => (.importPool vol.guid :: tr, { vol with error := some err } :: failed)
    | none => (.importPool vol.guid :: .unlockDatasets vol.name :: tr, failed)

/-- Restart calls of one critical service name against the services
table (lines 469-473). -/
def restarts_for (svc : String) : List SvcEntry → List Call
  | [] => []
  | j :: rest =>
    if svc == j.srv_service && j.srv_enable then
      .serviceRestart svc :: restarts_for svc rest
    else restarts_for svc rest

/-- The critical-service restart loop (lines 469-473), priority order. -/
def critical_restarts (services : List SvcEntry) : List Call :=
  (critical_services.map (fun i => restarts_for i services)).flatten

/-- The non-critical restart loop (lines 501-504).  The log call on
line 503 reads `i['service']` from a row whose keys are `srv_service`
and `srv_enable`, so the first enabled non-critical service raises
`KeyError` before its `service.restart` is issued; when no service
qualifies the loop finishes without restarting anything. -/
def non_crit_restarts : List SvcEntry → Except PyErr Unit
  | [] => .ok ()
  | j :: rest =>
    if !critical_services.contains j.srv_service && j.srv_enable then
      .error (.keyError "service")
    else non_crit_restarts rest

/-- The post-import fan-out of `vrrp_master` (lines 449-523): status
refresh, configuration regeneration, critical restarts, cron, disk and
enclosure sync, collectd and syslogd restarts, then the non-critical
loop (see `non_crit_restarts`), alert re-arm and optional KMIP sync. -/
def post_import (env : Env) (fobj_services : List SvcEntry) :
    List Call × Except PyErr Unit :=
  let tr : List Call :=
    [.statusRefresh, .etcGenerate "rc", .etcGenerate "system_dataset",
     .etcGenerate "ssl", .serviceRestart "http"]
    ++ critical_restarts fobj_services
    ++ [.etcGenerate "cron", .diskSyncAll, .enclosureSyncZpool,
        .serviceRestart "collectd", .serviceRestart "syslogd"]
  match non_crit_restarts fobj_services with
  | .error e => (tr, .error e)
  | .ok _ =>
    (tr ++ [.alertBlock, .alertInitialize, .kmipConfig]
        ++ (if env.kmip_enabled then [.kmipInitializeKeys] else []), .ok ())

/-- The snapshot fields of `generate_failover_data` consumed by the
transitions. -/
structure FObj where
  services : List SvcEntry
  disabled : Bool
  master : Bool
  timeout : Nat
  groups : List (Nat × String)
  volumes : List Volume
  non_crit_interfaces : List String
  internal_interfaces : List String
deriving Repr, DecidableEq

/-- `vrrp_master` after the fencing call returned `fenced_error`
(lines 355-529).  A truthy code returns `failover_successful` at once
(lines 357-369) — note the job result is not set there.  Otherwise the
cache bookkeeping and the import loop run; if every volume failed the
logging loop `for i in failed:` indexes the list `failed` with the
string `'name'` (line 430) and raises `TypeError` unless `failed` is
empty, in which case the result is set to ERROR and the flag value is
returned (lines 426-435); if only some failed, the result is set to
ERROR and the same buggy logging loop (line 443) raises `TypeError`
(lines 438-447); with no failure the post-import fan-out runs and on
completion sets `failover_successful = True` and returns it. -/
def master_after_fence (env : Env) (flag0 : Bool) (fobj : FObj)
    (tr0 : List Call) (fenced_error : Option Nat) : JobOut :=
  if fenced_truthy fenced_error then
    { result := .ok flag0, jobResult := none, trace := tr0, flag := flag0 }
  else
    let tr1 := tr0 ++ cache_steps env ++ [.setProgress "IMPORTING"]
    let imported := import_volumes env fobj.volumes
    let tr2 := tr1 ++ imported.1
    if imported.2.length == fobj.volumes.length then
      match imported.2 with
      | [] =>
        { result := .ok flag0, jobResult := some "ERROR", trace := tr2, flag := flag0 }
      | _ :: _ =>
        { result := .error (.typeError "list indices must be integers or slices, not str"),
          jobResult := none, trace := tr2, flag := flag0 }
    else if !imported.2.isEmpty then
      { result := .error (.typeError "list indices must be integers or slices, not str"),
        jobResult := some "ERROR", trace := tr2, flag := flag0 }
    else
      let post := post_import env fobj.services
      match post.2 with
      | .error e =>
        { result := .error e, jobResult := none, trace := tr2 ++ post.1, flag := flag0 }
      | .ok _ =>
        { result := .ok true, jobResult := none, trace := tr2 ++ post.1, flag := true }

/-- `FailoverService.vrrp_master` (lines 293-529).  Progress is set to
ELECTING; a forced event (forcetakeover or `force_fenced`) stops fenced
and force-starts it; otherwise the failover-group check may ignore the
event with result IGNORED, else fenced is stopped and started
normally. -/
def vrrp_master (env : Env) (flag0 : Bool) (fobj : FObj) (_ifname _ev : String)
    (force_fenced forcetakeover : Bool) : JobOut :=
  let tr : List Call := [.setProgress "ELECTING"]
  if forcetakeover || force_fenced then
    master_after_fence env flag0 fobj (tr ++ [.fencedStop, .fencedStart true])
      env.fenced_start_force
  else
    let tr := tr ++ [.checkFailoverGroup]
    if !env.group_status.backups.isEmpty then
      { result := .error .ignoreFailoverEvent, jobResult := some "IGNORED",
        trace := tr, flag := flag0 }
    else
      master_after_fence env flag0 fobj (tr ++ [.fencedStop, .fencedStart false])
        env.fenced_start_normal

/-- The export loop of `vrrp_backup` (lines 602-605): each volume is
force-exported through `run_call` (which swallows collaborator
failures). -/
def export_calls : List Volume → List Call
  | [] => []
  | v :: rest => .exportPool v.name :: export_calls rest

/-- The SSH loop of `vrrp_backup` (lines 641-644). -/
def ssh_restart : List SvcEntry → List Call
  | [] => []
  | j :: rest =>
    if j.srv_service == "ssh" && j.srv_enable then
      .serviceRestart "ssh" :: ssh_restart rest
    else ssh_restart rest

/-- `FailoverService.vrrp_backup` (lines 531-655).  The failover-group
check may ignore the event with result IGNORED; otherwise fenced is
stopped, keepalived restarted, and the watchdog marker file is created
by `open(self.watchdog_alert_file, 'w')` — the following
`f.write(int(time.time()))` raises `TypeError` (an `int` written to a
text file) but the surrounding `contextlib.suppress(Exception)` swallows
it, so the marker file exists, empty (lines 587-591).  The export loop
then runs under a 4-second SIGALRM deadline.  If the deadline fires, the
`ZpoolExportTimeout` handler executes
`with open('/proc/sys/kernel/sysrq') as f: f.write('1')` — the file is
opened without a write mode, so `f.write` raises
`io.UnsupportedOperation` (lines 610-617); the exception is not caught,
neither sysrq path is ever written (no `sysrqWrite` trace entry can be
produced), and everything after the handler — including the marker-file
removal on lines 622-623 — is skipped.  On the non-timeout path the
marker file is removed and the cleanup fan-out (lines 625-655) runs,
ending with `failover_successful = True`. -/
def vrrp_backup (env : Env) (flag0 : Bool) (fobj : FObj) (_ifname _ev : String)
    (_force_fenced : Bool) : JobOut :=
  let tr : List Call := [.checkFailoverGroup]
  if !env.group_status.masters.isEmpty then
    { result := .error .ignoreFailoverEvent, jobResult := some "IGNORED",
      trace := tr, flag := flag0 }
  else
    let tr := tr ++ [.fencedStop, .serviceRestart "keepalived",
                     .createFile watchdog_alert_file]
    if env.export_times_out then
      let tr := tr ++ export_calls (fobj.volumes.take env.exports_done_before_timeout)
      { result := .error .unsupportedOperation, jobResult := none,
        trace := tr, flag := flag0 }
    else
      let tr := tr ++ export_calls fobj.volumes
                ++ [.unlinkFile watchdog_alert_file, .statusRefresh,
                    .serviceRestart "syslogd", .etcGenerate "cron",
                    .serviceStop "smartd", .serviceStop "collectd"]
                ++ ssh_restart fobj.services
                ++ [.callRemote "failover.sync_keys_to_remote_node"]
      { result := .ok true, jobResult := none, trace := tr, flag := true }

/-- Outcome of `event`/`_event`: the Python result (`.ok none` models a
bare `return`/fall-through returning `None`, `.ok (some b)` a
`return self.failover_successful`), the call trace and the flag. -/
structure EventOut where
  result : Except PyErr (Option Bool)
  trace : List Call
  flag : Bool
deriving Repr, DecidableEq

/-- `FailoverService.generate_failover_data` (lines 114-153): the
snapshot built from five collaborator queries. -/
def generate_failover_data (env : Env) : FObj × List Call :=
  ({ services := env.services
   , disabled := env.config.disabled
   , master := env.config.master
   , timeout := env.config.timeout
   , groups := (env.interfaces.filter (fun i => i.failover_critical)).map
       (fun i => (i.failover_group, i.id))
   , volumes := env.pools
   , non_crit_interfaces := (env.interfaces.filter
       (fun i => !i.failover_critical)).map (fun i => i.id)
   , internal_interfaces := env.internal_interfaces },
   [.poolQuery, .datastoreQuery, .failoverConfig, .interfaceQuery,
    .internalInterfaces])

/-- The fresh by-name `pool.query ... {'get': True}` of `_event`
(line 246): `{'get': True}` makes an empty answer raise inside the
collaborator, which `run_call` turns into `None`; `None['status']` then
raises `TypeError` in `_event` itself. -/
def pool_query_get (env : Env) (name : String) : Option Volume :=
  env.pools.find? (fun p => p.name == name)

/-- The pool-readiness loop of `_event` (lines 244-249): walks the
snapshot volumes, fresh-querying each; stops at the first volume whose
fresh status is not ONLINE. -/
def needs_imported_loop (env : Env) : List Volume → List Call × Except PyErr Bool
  | [] => ([], .ok false)
  | vol :: rest =>
    match pool_query_get env vol.name with
    | none => ([.poolQueryByName vol.name],
               .error (.typeError "NoneType object is not subscriptable"))
    | some zpool =>
      if zpool.status != "ONLINE" then ([.poolQueryByName vol.name], .ok true)
      else
        let r := needs_imported_loop env rest
        (.poolQueryByName vol.name :: r.1, r.2)

/-- The MASTER dispatch of `_event` (lines 268-278): the job is started
and waited on synchronously; an exception inside the job body — the
ignore exception from the failover-group check included — surfaces as
`job.error` and makes `_event` return `self.failover_successful`; it is
never re-raised at the dispatch boundary (the call site checks
`vrrp_master_job.error` after `wait_sync`, and the spec states the
caller receives an outcome, never an exception, for in-protocol
failures).  Without an error `_event` falls through and returns
`None`. -/
def dispatch_master (env : Env) (flag0 : Bool) (fobj : FObj) (ifname ev : String)
    (force_fenced forcetakeover : Bool) (tr : List Call) : EventOut :=
  let j := vrrp_master env flag0 fobj ifname ev force_fenced forcetakeover
  let tr := tr ++ j.trace
  match j.result with
  | .error _ => { result := .ok (some j.flag), trace := tr, flag := j.flag }
  | .ok _ => { result := .ok none, trace := tr, flag := j.flag }

/-- The tail of `_event` on the non-forced path (lines 243-278): the
pool-readiness loop, the early `return` when everything is already
imported, otherwise `event = 'MASTER'` with `force_fenced = True`
(lines 256-261), the swallowed `validate` call (line 265, see
`validate`) and the MASTER dispatch. -/
def proceed_pools (env : Env) (flag0 : Bool) (fobj : FObj) (ifname : String)
    (tr : List Call) : EventOut :=
  let ni := needs_imported_loop env fobj.volumes
  let tr := tr ++ ni.1
  match ni.2 with
  | .error e => { result := .error e, trace := tr, flag := flag0 }
  | .ok false => { result := .ok none, trace := tr, flag := flag0 }
  | .ok true =>
    dispatch_master env flag0 fobj ifname "MASTER" true false (tr ++ [.validateCall])

/-- `FailoverService._event` (lines 205-291).  A forcetakeover event
skips every soft check; its `validate` call is swallowed by `run_call`
(the `TypeError` of `validateFilterArg` included), and the dispatch on
line 270 then evaluates `force_fenced`, a local only ever assigned
inside the `if not forcetakeover:` block, so the forced path raises
`UnboundLocalError` before the MASTER job is started.  A non-forced
event runs the soft checks: HA disabled while not designated master →
ignore; a non-critical interface name occurring as a Python substring
of `ifname` (line 226 tests `i in ifname` on strings) → ignore; peer
connected and already MASTER → ignore; then the pool-readiness tail. -/
def _event (env : Env) (flag0 : Bool) (ifname ev : String) : EventOut :=
  let forcetakeover := ev == "forcetakeover"
  let g := generate_failover_data env
  let fobj := g.1
  if forcetakeover then
    { result := .error (.unboundLocalError "force_fenced")
    , trace := g.2 ++ [.validateCall], flag := flag0 }
  else
    if fobj.disabled && !fobj.master then
      { result := .error .ignoreFailoverEvent, trace := g.2, flag := flag0 }
    else if !(fobj.non_crit_interfaces.filter (fun i => substrB i ifname)).isEmpty then
      { result := .error .ignoreFailoverEvent, trace := g.2, flag := flag0 }
    else
      let tr := g.2 ++ [.remoteConnected]
      if env.remote_connected then
        let tr := tr ++ [.callRemote "failover.status"]
        if env.remote_status == "MASTER" then
          { result := .error .ignoreFailoverEvent, trace := tr, flag := flag0 }
        else proceed_pools env flag0 fobj ifname tr
      else proceed_pools env flag0 fobj ifname tr

/-- `FailoverService.event` (lines 97-108): runs `_event`; when it
raises the ignore exception, `refresh` is cleared and `event` returns
`None`; in every other case — success or any other exception — the
`finally` block issues the `failover.status_refresh` call after the
event completes. -/
def event (env : Env) (flag0 : Bool) (ifname ev : String) : EventOut :=
  let o := _event env flag0 ifname ev
  match o.result with
  | .error .ignoreFailoverEvent => { o with result := .ok none }
  | r => { result := r, trace := o.trace ++ [.statusRefresh], flag := o.flag }

/-- Trace predicate: a `zfs.pool.import_pool` call. -/
def isImport : Call → Bool
  | .importPool _ => true
  | _ => false

/-- Trace predicate: a `service.restart` call. -/
def isRestart : Call → Bool
  | .serviceRestart _ => true
  | _ => false

/-- Trace predicate: a `failover.fenced.stop`/`start` call. -/
def isFenced : Call → Bool
  | .fencedStop => true
  | .fencedStart _ => true
  | _ => false

/-- Trace predicate: a write to one of the two sysrq kernel paths. -/
def isSysrq : Call → Bool
  | .sysrqWrite _ _ => true
  | _ => false

/-- Trace predicate: a collaborator call that changes state somewhere
(everything except pure queries and progress reporting). -/
def mutates : Call → Bool
  | .poolQuery => false
  | .datastoreQuery => false
  | .failoverConfig => false
  | .interfaceQuery => false
  | .internalInterfaces => false
  | .remoteConnected => false
  | .poolQueryByName _ => false
  | .validateCall => false
  | .checkFailoverGroup => false
  | .getJobs => false
  | .kmipConfig => false
  | .setProgress _ => false
  | .callRemote m => m != "failover.status"
  | _ => true

/-- Snapshot built by `generate_failover_data` in an environment. -/
def fobj_of (env : Env) : FObj := (generate_failover_data env).1

/-- Environment in which the normal fencing start exits with code 3
(10 percent or more of the disk reservations failed). -/
def envFence3 : Env := { envBase with fenced_start_normal := some 3 }

/-- A pool that is not imported. -/
def volA : Volume := { name := "tank", guid := "g1", status := "OFFLINE" }

/-- A second pool that is not imported. -/
def volB : Volume := { name := "data", guid := "g2", status := "OFFLINE" }

/-- Environment with two pools of which exactly one fails to import. -/
def envPartialImport : Env :=
  { envBase with pools := [volA, volB], import_errors := [("g1", "cannot import")] }

/-- Environment with two pools that both fail to import. -/
def envAllFailImport : Env :=
  { envBase with
    pools := [volA, volB],
    import_errors := [("g1", "cannot import"), ("g2", "cannot import")] }

/-- Environment in which the zpool export exceeds the 4-second
deadline. -/
def envExportTimeout : Env := { envBase with export_times_out := true }

/-- Environment whose only interface is non-critical and named eth1. -/
def envNonCrit : Env :=
  { envBase with
    interfaces := [{ id := "eth1", failover_critical := false, failover_group := 1 }] }

/-- Environment with HA disabled on a node not designated master: any
non-forced event is ignored by the first soft check. -/
def envDisabledBackupNode : Env :=
  { envBase with config := { disabled := true, master := false, timeout := 30 } }

/-- C2: the claim says that when the export deadline fires first, the
low-level reboot trigger (writes to the two fixed kernel control paths)
is invoked exactly once.  In the source the `ZpoolExportTimeout`
handler opens `/proc/sys/kernel/sysrq` without a write mode, so
`f.write('1')` raises `io.UnsupportedOperation`: neither kernel path is
ever written, no reboot is triggered, and the job dies with the
unhandled exception (the marker-file removal is indeed never reached,
but through the exception, not a reboot).  The non-timeout half of the
claim does hold: the marker file is created before the export and
removed after it.  This theorem evaluates both branches. -/
theorem C2_reboot_trigger_never_written :
    (let o := vrrp_backup envExportTimeout false (fobj_of envExportTimeout)
        "em0" "BACKUP" false
     o.result = .error .unsupportedOperation
      ∧ o.trace.filter isSysrq = []
      ∧ Call.unlinkFile watchdog_alert_file ∉ o.trace
      ∧ Call.createFile watchdog_alert_file ∈ o.trace)
    ∧ (vrrp_backup envBase false (fobj_of envBase) "em0" "BACKUP" false).trace
        = [.checkFailoverGroup, .fencedStop, .serviceRestart "keepalived",
           .createFile watchdog_alert_file, .exportPool "tank",
           .unlinkFile watchdog_alert_file, .statusRefresh,
           .serviceRestart "syslogd", .etcGenerate "cron",
           .serviceStop "smartd", .serviceStop "collectd",
           .callRemote "failover.sync_keys_to_remote_node"] := by
  decide

/-- C3: the claim says an all-failed import yields job result ERROR,
and a partial failure yields ERROR while all post-import steps still
run.  In the source the per-volume error logging loops
(lines 427-431 and 440-447) index the list `failed` with the string
`'name'`, raising `TypeError` as soon as `failed` is non-empty: with
every volume failed, the job dies before `set_result('ERROR')` is
reached; with a partial failure the result is set to ERROR but the job
then dies, so no post-import step runs.  This theorem evaluates the
code at both failing inputs. -/
theorem C3_import_logging_typeerror :
    (let o := vrrp_master envPartialImport false (fobj_of envPartialImport)
        "em0" "MASTER" true false
     o.result = .error (.typeError "list indices must be integers or slices, not str")
      ∧ o.jobResult = some "ERROR"
      ∧ Call.statusRefresh ∉ o.trace
      ∧ o.trace.filter isRestart = [])
    ∧ (let o := vrrp_master envAllFailImport false (fobj_of envAllFailImport)
        "em0" "MASTER" true false
       o.result = .error (.typeError "list indices must be integers or slices, not str")
        ∧ o.jobResult = none
        ∧ Call.statusRefresh ∉ o.trace) := by
  decide

/-- C4 counterexample: with the normal fencing start exiting 3, the
transition aborts without importing or restarting anything, but —
contrary to the claim — its job result is never set to ERROR: the
fencing-failure branch (lines 357-369) only logs and returns the
current `failover_successful` value. -/
theorem C4_counterexample :
    (let o := vrrp_master envFence3 false (fobj_of envFence3) "em0" "MASTER" false false
     ¬ o.jobResult = some "ERROR"
      ∧ o.jobResult = none
      ∧ o.result = .ok false
      ∧ o.trace.filter isImport = []
      ∧ o.trace.filter isRestart = []) := by
  decide

/-- C5: the claim says a forcetakeover event skips the soft checks and
dispatches a MASTER transition with forced fencing.  The soft checks
are indeed skipped (the same environment ignores a plain MASTER event
through the HA-disabled check), but the dispatch on line 270 reads the
local `force_fenced`, which is only ever assigned inside the
`if not forcetakeover:` block, so the forced path raises
`UnboundLocalError` before the MASTER job — and hence fencing — is
ever started.  This theorem evaluates the code at the failing input. -/
theorem C5_forcetakeover_unbound_local :
    (let o := _event envDisabledBackupNode false "em0" "forcetakeover"
     o.result = .error (.unboundLocalError "force_fenced")
      ∧ o.trace.filter isFenced = []
      ∧ o.trace.filter isImport = [])
    ∧ (_event envDisabledBackupNode false "em0" "MASTER").result
        = .error .ignoreFailoverEvent := by
  decide

/-- C7 counterexample: interface eth10 is not in the non-critical set
(which holds exactly eth1), yet the event on eth10 is ignored, because
line 226 tests `i in ifname` — Python substring containment — instead
of set membership, and eth1 is a substring of eth10. -/
theorem C7_counterexample :
    (_event envNonCrit false "eth10" "MASTER").result = .error .ignoreFailoverEvent
    ∧ "eth10" ∉ (fobj_of envNonCrit).non_crit_interfaces := by
  decide

/-- A truthy fencing exit code returns at once: nothing beyond `tr0`
happens, the job result stays unset, the flag is untouched. -/
theorem master_after_fence_fail (env : Env) (flag0 : Bool) (fobj : FObj)
    (tr0 : List Call) (fe : Option Nat) (hf : fenced_truthy fe = true) :
    master_after_fence env flag0 fobj tr0 fe
      = { result := .ok flag0, jobResult := none, trace := tr0, flag := flag0 } := by
  simp [master_after_fence, hf]

/-- With fencing OK and an empty volume list, the all-failed branch is
taken vacuously: result ERROR, return before the post-import steps. -/
theorem master_after_fence_empty (env : Env) (flag0 : Bool) (fobj : FObj)
    (tr0 : List Call) (fe : Option Nat) (hv : fobj.volumes = [])
    (hf : fenced_truthy fe = false) :
    master_after_fence env flag0 fobj tr0 fe
      = { result := .ok flag0, jobResult := some "ERROR",
          trace := tr0 ++ cache_steps env ++ [.setProgress "IMPORTING"],
          flag := flag0 } := by
  simp [master_after_fence, hf, hv, import_volumes]

/-- The cache bookkeeping issues no restart, no import, no status
refresh. -/
theorem cache_steps_clean (env : Env) :
    (cache_steps env).filter isRestart = []
    ∧ (cache_steps env).filter isImport = []
    ∧ Call.statusRefresh ∉ cache_steps env := by
  unfold cache_steps
  split <;> split <;> decide

/-- C4 (amended): any truthy fencing start code — 3 included — aborts
the MASTER transition before any import or restart, returning the
current `failover_successful` value; the job result is left unset (it
is not set to ERROR, which is where the claim errs). -/
theorem C4_fence_nonzero_aborts (env : Env) (flag0 : Bool) (fobj : FObj)
    (ifname ev : String) (ff ft : Bool)
    (hgrp : (ft || ff) = true ∨ env.group_status.backups = [])
    (hf : fenced_truthy (if ft || ff then env.fenced_start_force
            else env.fenced_start_normal) = true) :
    (vrrp_master env flag0 fobj ifname ev ff ft).result = .ok flag0
    ∧ (vrrp_master env flag0 fobj ifname ev ff ft).jobResult = none
    ∧ (vrrp_master env flag0 fobj ifname ev ff ft).flag = flag0
    ∧ (vrrp_master env flag0 fobj ifname ev ff ft).trace.filter isImport = []
    ∧ (vrrp_master env flag0 fobj ifname ev ff ft).trace.filter isRestart = [] := by
  cases h : (ft || ff) with
  | true =>
    simp only [h, if_true] at hf
    have e : vrrp_master env flag0 fobj ifname ev ff ft
        = master_after_fence env flag0 fobj
            [.setProgress "ELECTING", .fencedStop, .fencedStart true]
            env.fenced_start_force := by
      simp [vrrp_master, h]
    rw [e, master_after_fence_fail env flag0 fobj _ _ hf]
    exact ⟨rfl, rfl, rfl, rfl, rfl⟩
  | false =>
    have hb : env.group_status.backups = [] := by
      rcases hgrp with hg | hg
      · rw [h] at hg; exact absurd hg (by decide)
      · exact hg
    rw [h] at hf
    simp only [Bool.false_eq_true, if_false] at hf
    have e : vrrp_master env flag0 fobj ifname ev ff ft
        = master_after_fence env flag0 fobj
            [.setProgress "ELECTING", .checkFailoverGroup, .fencedStop,
             .fencedStart false]
            env.fenced_start_normal := by
      simp [vrrp_master, h, hb]
    rw [e, master_after_fence_fail env flag0 fobj _ _ hf]
    exact ⟨rfl, rfl, rfl, rfl, rfl⟩

/-- Witness for C4 at a concrete input: fencing exits 3, the transition
returns the (false) flag and leaves the job result unset. -/
theorem C4_witness :
    (vrrp_master envFence3 false (fobj_of envFence3) "em0" "MASTER" false false).result
      = .ok false
    ∧ (vrrp_master envFence3 false (fobj_of envFence3) "em0" "MASTER" false false).jobResult
      = none := by
  have h := C4_fence_nonzero_aborts envFence3 false (fobj_of envFence3) "em0" "MASTER"
    false false (Or.inr rfl) (by decide)
  exact ⟨h.1, h.2.1⟩

/-- C10: with an empty snapshot volume list and OK fencing, the
all-failed branch is taken vacuously — the job result becomes ERROR and
the transition returns before the post-import fan-out, with nothing
imported and nothing restarted. -/
theorem C10_empty_volume_list (env : Env) (flag0 : Bool) (fobj : FObj)
    (ifname ev : String) (ff ft : Bool)
    (hv : fobj.volumes = [])
    (hgrp : (ft || ff) = true ∨ env.group_status.backups = [])
    (hf : fenced_truthy (if ft || ff then env.fenced_start_force
            else env.fenced_start_normal) = false) :
    (vrrp_master env flag0 fobj ifname ev ff ft).jobResult = some "ERROR"
    ∧ (vrrp_master env flag0 fobj ifname ev ff ft).result = .ok flag0
    ∧ (vrrp_master env flag0 fobj ifname ev ff ft).flag = flag0
    ∧ (vrrp_master env flag0 fobj ifname ev ff ft).trace.filter isImport = []
    ∧ (vrrp_master env flag0 fobj ifname ev ff ft).trace.filter isRestart = []
    ∧ Call.statusRefresh ∉ (vrrp_master env flag0 fobj ifname ev ff ft).trace := by
  have hclean := cache_steps_clean env
  cases h : (ft || ff) with
  | true =>
    simp only [h, if_true] at hf
    have e : vrrp_master env flag0 fobj ifname ev ff ft
        = master_after_fence env flag0 fobj
            [.setProgress "ELECTING", .fencedStop, .fencedStart true]
            env.fenced_start_force := by
      simp [vrrp_master, h]
    rw [e, master_after_fence_empty env flag0 fobj _ _ hv hf]
    refine ⟨rfl, rfl, rfl, ?_, ?_, ?_⟩
    · simp [List.filter_append, isImport, hclean.2.1]
    · simp [List.filter_append, isRestart, hclean.1]
    · simp [List.mem_append, hclean.2.2]
  | false =>
    have hb : env.group_status.backups = [] := by
      rcases hgrp with hg | hg
      · rw [h] at hg; exact absurd hg (by decide)
      · exact hg
    rw [h] at hf
    simp only [Bool.false_eq_true, if_false] at hf
    have e : vrrp_master env flag0 fobj ifname ev ff ft
        = master_after_fence env flag0 fobj
            [.setProgress "ELECTING", .checkFailoverGroup, .fencedStop,
             .fencedStart false]
            env.fenced_start_normal := by
      simp [vrrp_master, h, hb]
    rw [e, master_after_fence_empty env flag0 fobj _ _ hv hf]
    refine ⟨rfl, rfl, rfl, ?_, ?_, ?_⟩
    · simp [List.filter_append, isImport, hclean.2.1]
    · simp [List.filter_append, isRestart, hclean.1]
    · simp [List.mem_append, hclean.2.2]

/-- Environment with no pools at all. -/
def envNoPools : Env := { envBase with pools := [] }

/-- Witness for C10 at a concrete input. -/
theorem C10_witness :
    (vrrp_master envNoPools false (fobj_of envNoPools) "em0" "MASTER" true false).jobResult
      = some "ERROR"
    ∧ (vrrp_master envNoPools false (fobj_of envNoPools) "em0" "MASTER" true false).result
      = .ok false := by
  have h := C10_empty_volume_list envNoPools false (fobj_of envNoPools) "em0" "MASTER"
    true false rfl (Or.inl rfl) (by decide)
  exact ⟨h.1, h.2.1⟩

/-- Flag discipline of `master_after_fence`: the flag is never lowered,
and every value the body returns is the current flag. -/
theorem master_after_fence_flag (env : Env) (flag0 : Bool) (fobj : FObj)
    (tr0 : List Call) (fe : Option Nat) :
    ((master_after_fence env flag0 fobj tr0 fe).flag = flag0
      ∨ (master_after_fence env flag0 fobj tr0 fe).flag = true)
    ∧ ∀ b, (master_after_fence env flag0 fobj tr0 fe).result = .ok b
        → b = (master_after_fence env flag0 fobj tr0 fe).flag := by
  unfold master_after_fence
  dsimp only
  split
  · exact ⟨Or.inl rfl, fun b h => by injection h with h; exact h.symm⟩
  · split
    · split
      · exact ⟨Or.inl rfl, fun b h => by injection h with h; exact h.symm⟩
      · exact ⟨Or.inl rfl, fun b h => by cases h⟩
    · split
      · exact ⟨Or.inl rfl, fun b h => by cases h⟩
      · split
        · exact ⟨Or.inl rfl, fun b h => by cases h⟩
        · exact ⟨Or.inr rfl, fun b h => by injection h with h; exact h.symm⟩

/-- Flag discipline of `vrrp_master`. -/
theorem vrrp_master_flag (env : Env) (flag0 : Bool) (fobj : FObj)
    (ifname ev : String) (ff ft : Bool) :
    ((vrrp_master env flag0 fobj ifname ev ff ft).flag = flag0
      ∨ (vrrp_master env flag0 fobj ifname ev ff ft).flag = true)
    ∧ ∀ b, (vrrp_master env flag0 fobj ifname ev ff ft).result = .ok b
        → b = (vrrp_master env flag0 fobj ifname ev ff ft).flag := by
  unfold vrrp_master
  dsimp only
  split
  · exact master_after_fence_flag env flag0 fobj _ _
  · split
    · exact ⟨Or.inl rfl, fun b h => by cases h⟩
    · exact master_after_fence_flag env flag0 fobj _ _

/-- Flag discipline of `vrrp_backup`. -/
theorem vrrp_backup_flag (env : Env) (flag0 : Bool) (fobj : FObj)
    (ifname ev : String) (ff : Bool) :
    ((vrrp_backup env flag0 fobj ifname ev ff).flag = flag0
      ∨ (vrrp_backup env flag0 fobj ifname ev ff).flag = true)
    ∧ ∀ b, (vrrp_backup env flag0 fobj ifname ev ff).result = .ok b
        → b = (vrrp_backup env flag0 fobj ifname ev ff).flag := by
  unfold vrrp_backup
  dsimp only
  split
  · exact ⟨Or.inl rfl, fun b h => by cases h⟩
  · split
    · exact ⟨Or.inl rfl, fun b h => by cases h⟩
    · exact ⟨Or.inr rfl, fun b h => by injection h with h; exact h.symm⟩

/-- Flag discipline of the MASTER dispatch. -/
theorem dispatch_master_flag (env : Env) (flag0 : Bool) (fobj : FObj)
    (ifname ev : String) (ff ft : Bool) (tr : List Call) :
    ((dispatch_master env flag0 fobj ifname ev ff ft tr).flag = flag0
      ∨ (dispatch_master env flag0 fobj ifname ev ff ft tr).flag = true)
    ∧ ∀ b, (dispatch_master env flag0 fobj ifname ev ff ft tr).result = .ok (some b)
        → b = (dispatch_master env flag0 fobj ifname ev ff ft tr).flag := by
  have h := vrrp_master_flag env flag0 fobj ifname ev ff ft
  unfold dispatch_master
  dsimp only
  split
  · exact ⟨h.1, fun b hb => by
      injection hb with hb; injection hb with hb; exact hb.symm⟩
  · exact ⟨h.1, fun b hb => by injection hb with hb; cases hb⟩

/-- Flag discipline of the pool-readiness tail. -/
theorem proceed_pools_flag (env : Env) (flag0 : Bool) (fobj : FObj)
    (ifname : String) (tr : List Call) :
    ((proceed_pools env flag0 fobj ifname tr).flag = flag0
      ∨ (proceed_pools env flag0 fobj ifname tr).flag = true)
    ∧ ∀ b, (proceed_pools env flag0 fobj ifname tr).result = .ok (some b)
        → b = (proceed_pools env flag0 fobj ifname tr).flag := by
  unfold proceed_pools
  dsimp only
  split
  · exact ⟨Or.inl rfl, fun b h => by cases h⟩
  · exact ⟨Or.inl rfl, fun b h => by injection h with h; cases h⟩
  · exact dispatch_master_flag env flag0 fobj ifname "MASTER" true false _

/-- Flag discipline of `_event`. -/
theorem _event_flag (env : Env) (flag0 : Bool) (ifname ev : String) :
    ((_event env flag0 ifname ev).flag = flag0
      ∨ (_event env flag0 ifname ev).flag = true)
    ∧ ∀ b, (_event env flag0 ifname ev).result = .ok (some b)
        → b = (_event env flag0 ifname ev).flag := by
  unfold _event
  dsimp only
  split
  · exact ⟨Or.inl rfl, fun b h => by cases h⟩
  · split
    · exact ⟨Or.inl rfl, fun b h => by cases h⟩
    · split
      · exact ⟨Or.inl rfl, fun b h => by cases h⟩
      · split
        · split
          · exact ⟨Or.inl rfl, fun b h => by cases h⟩
          · exact proceed_pools_flag env flag0 _ ifname _
        · exact proceed_pools_flag env flag0 _ ifname _

/-- Flag discipline of the `event` dispatch boundary. -/
theorem event_flag (env : Env) (flag0 : Bool) (ifname ev : String) :
    ((event env flag0 ifname ev).flag = flag0
      ∨ (event env flag0 ifname ev).flag = true)
    ∧ ∀ b, (event env flag0 ifname ev).result = .ok (some b)
        → b = (event env flag0 ifname ev).flag := by
  have h := _event_flag env flag0 ifname ev
  unfold event
  dsimp only
  split
  · exact ⟨h.1, fun b hb => by injection hb with hb; cases hb⟩
  · refine ⟨h.1, fun b hb => ?_⟩
    exact h.2 b hb

/-- C9: the process-wide `failover_successful` flag starts `false`, is
only ever raised to `true` (at the successful end of a MASTER or BACKUP
transition) and never reset; every value returned by a transition body
or by the dispatcher — the error returns included — is the current
value of the flag, so once any transition has succeeded every later
failed attempt still reports `true` to its caller. -/
theorem C9_flag_monotone (env : Env) (flag0 : Bool) (fobj : FObj)
    (ifname ev : String) (ff ft : Bool) :
    init_failover_successful = false
    ∧ ((vrrp_master env flag0 fobj ifname ev ff ft).flag = flag0
        ∨ (vrrp_master env flag0 fobj ifname ev ff ft).flag = true)
    ∧ (∀ b, (vrrp_master env flag0 fobj ifname ev ff ft).result = .ok b
        → b = (vrrp_master env flag0 fobj ifname ev ff ft).flag)
    ∧ ((vrrp_backup env flag0 fobj ifname ev ff).flag = flag0
        ∨ (vrrp_backup env flag0 fobj ifname ev ff).flag = true)
    ∧ (∀ b, (vrrp_backup env flag0 fobj ifname ev ff).result = .ok b
        → b = (vrrp_backup env flag0 fobj ifname ev ff).flag)
    ∧ ((event env flag0 ifname ev).flag = flag0
        ∨ (event env flag0 ifname ev).flag = true)
    ∧ (∀ b, (event env flag0 ifname ev).result = .ok (some b)
        → b = (event env flag0 ifname ev).flag) := by
  exact ⟨rfl, (vrrp_master_flag env flag0 fobj ifname ev ff ft).1,
    (vrrp_master_flag env flag0 fobj ifname ev ff ft).2,
    (vrrp_backup_flag env flag0 fobj ifname ev ff).1,
    (vrrp_backup_flag env flag0 fobj ifname ev ff).2,
    (event_flag env flag0 ifname ev).1,
    (event_flag env flag0 ifname ev).2⟩

/-- Witness for C9 at a concrete input: a fully successful MASTER
transition returns `true`, which equals the flag it set. -/
theorem C9_witness :
    true = (vrrp_master envBase false (fobj_of envBase) "em0" "MASTER" false false).flag := by
  exact (C9_flag_monotone envBase false (fobj_of envBase) "em0" "MASTER" false false).2.2.1
    true (by decide)

/-- The query trace of the snapshot builder contains no mutating call. -/
theorem gtr_mutates_nil (env : Env) :
    (generate_failover_data env).2.filter mutates = [] := rfl

/-- When every pool is ONLINE, the pool-readiness loop answers `False`
(nothing needs importing) and performs only by-name queries. -/
theorem needs_imported_loop_online (env : Env) (vols : List Volume)
    (hsub : ∀ v ∈ vols, v ∈ env.pools)
    (hon : ∀ v ∈ env.pools, v.status = "ONLINE") :
    (needs_imported_loop env vols).2 = .ok false
    ∧ (needs_imported_loop env vols).1.filter mutates = [] := by
  induction vols with
  | nil => exact ⟨rfl, rfl⟩
  | cons v rest ih =>
    have hv : v ∈ env.pools := hsub v (List.mem_cons_self v rest)
    have hsome : (env.pools.find? (fun p => p.name == v.name)).isSome := by
      rw [List.find?_isSome]
      exact ⟨v, hv, by simp⟩
    obtain ⟨w, hw⟩ := Option.isSome_iff_exists.mp hsome
    have hwmem : w ∈ env.pools := List.mem_of_find?_eq_some hw
    have hws : w.status = "ONLINE" := hon w hwmem
    have hpq : pool_query_get env v.name = some w := hw
    have ihh := ih (fun x hx => hsub x (List.mem_cons_of_mem v hx))
    unfold needs_imported_loop
    rw [hpq]
    simp only [hws, bne_self_eq_false, Bool.false_eq_true, if_false]
    exact ⟨ihh.1, by simpa [mutates] using ihh.2⟩

/-- When every pool is ONLINE the pool-readiness tail is the
already-imported fast path: it returns `None` with no dispatch and adds
only query calls to the trace. -/
theorem proceed_pools_all_online (env : Env) (flag0 : Bool) (fobj : FObj)
    (ifname : String) (tr : List Call)
    (hsub : ∀ v ∈ fobj.volumes, v ∈ env.pools)
    (hon : ∀ v ∈ env.pools, v.status = "ONLINE") :
    proceed_pools env flag0 fobj ifname tr
      = { result := .ok none,
          trace := tr ++ (needs_imported_loop env fobj.volumes).1, flag := flag0 }
    ∧ (needs_imported_loop env fobj.volumes).1.filter mutates = [] := by
  have h := needs_imported_loop_online env fobj.volumes hsub hon
  refine ⟨?_, h.2⟩
  unfold proceed_pools
  dsimp only
  rw [h.1]

/-- C6: a non-forced event that passes the HA-disabled, non-critical
interface and peer-already-master checks, in an environment where every
volume reports ONLINE, is a no-op: `_event` returns `None` without
dispatching any transition — its whole trace consists of queries, so no
fencing, no import, no restart, no result is ever produced. -/
theorem C6_all_online_noop (env : Env) (flag0 : Bool) (ifname ev : String)
    (hft : (ev == "forcetakeover") = false)
    (hdis : (env.config.disabled && !env.config.master) = false)
    (hnc : (fobj_of env).non_crit_interfaces.filter (fun i => substrB i ifname) = [])
    (hrem : (env.remote_connected && (env.remote_status == "MASTER")) = false)
    (hon : ∀ v ∈ env.pools, v.status = "ONLINE") :
    (_event env flag0 ifname ev).result = .ok none
    ∧ (_event env flag0 ifname ev).flag = flag0
    ∧ (_event env flag0 ifname ev).trace.filter mutates = [] := by
  have hsub : ∀ v ∈ (fobj_of env).volumes, v ∈ env.pools := fun v hv => hv
  have hdis' : ((generate_failover_data env).1.disabled
      && !(generate_failover_data env).1.master) = false := hdis
  have hnc' : ((generate_failover_data env).1.non_crit_interfaces.filter
      (fun i => substrB i ifname)).isEmpty = true := by
    have : (fobj_of env).non_crit_interfaces.filter (fun i => substrB i ifname) = [] := hnc
    simpa [List.isEmpty_iff] using this
  unfold _event
  dsimp only
  rw [hft]
  simp only [Bool.false_eq_true, if_false, hdis', hnc', Bool.not_true,
    Bool.false_eq_true, if_false]
  cases hc : env.remote_connected with
  | false =>
    simp only [Bool.false_eq_true, if_false]
    have hp := proceed_pools_all_online env flag0 (generate_failover_data env).1 ifname
      ((generate_failover_data env).2 ++ [Call.remoteConnected]) hsub hon
    rw [hp.1]
    refine ⟨rfl, rfl, ?_⟩
    simp [List.filter_append, gtr_mutates_nil, mutates, hp.2]
  | true =>
    have hrs : (env.remote_status == "MASTER") = false := by
      cases hs : (env.remote_status == "MASTER") with
      | false => rfl
      | true => rw [hc, hs] at hrem; cases hrem
    simp only [if_true, hrs, Bool.false_eq_true, if_false]
    have hp := proceed_pools_all_online env flag0 (generate_failover_data env).1 ifname
      ((generate_failover_data env).2 ++ [Call.remoteConnected]
        ++ [Call.callRemote "failover.status"]) hsub hon
    rw [hp.1]
    refine ⟨rfl, rfl, ?_⟩
    simp [List.filter_append, gtr_mutates_nil, mutates, hp.2]

/-- Witness for C6 at a concrete input: the baseline environment has a
single ONLINE pool and a plain MASTER event is a pure no-op. -/
theorem C6_witness :
    (_event envBase false "em0" "MASTER").result = .ok none
    ∧ (_event envBase false "em0" "MASTER").trace.filter mutates = [] := by
  have h := C6_all_online_noop envBase false "em0" "MASTER" (by decide) (by decide)
    (by decide) (by decide) (by decide)
  exact ⟨h.1, h.2.2⟩

/-- The pool-readiness loop can fail only with `TypeError`, never with
the ignore exception. -/
theorem needs_imported_loop_no_ignore (env : Env) (vols : List Volume) :
    (needs_imported_loop env vols).2 ≠ .error .ignoreFailoverEvent := by
  induction vols with
  | nil => intro h; cases h
  | cons v rest ih =>
    unfold needs_imported_loop
    dsimp only
    cases hpq : pool_query_get env v.name with
    | none => intro h; injection h with h; cases h
    | some w =>
      cases hst : (w.status != "ONLINE") with
      | true => simp [hst]
      | false =>
        simp only [hst, Bool.false_eq_true, if_false]
        exact ih

/-- The MASTER dispatch always returns a value to `_event`: job
exceptions surface as `job.error`, never as a raised exception. -/
theorem dispatch_master_ok (env : Env) (flag0 : Bool) (fobj : FObj)
    (ifname ev : String) (ff ft : Bool) (tr : List Call) :
    ∃ v, (dispatch_master env flag0 fobj ifname ev ff ft tr).result = .ok v := by
  unfold dispatch_master
  dsimp only
  split
  · exact ⟨some (vrrp_master env flag0 fobj ifname ev ff ft).flag, rfl⟩
  · exact ⟨none, rfl⟩

/-- The pool-readiness tail never raises the ignore exception. -/
theorem proceed_pools_no_ignore (env : Env) (flag0 : Bool) (fobj : FObj)
    (ifname : String) (tr : List Call) :
    (proceed_pools env flag0 fobj ifname tr).result ≠ .error .ignoreFailoverEvent := by
  unfold proceed_pools
  dsimp only
  split
  · rename_i e heq
    intro hcon
    injection hcon with hcon
    rw [hcon] at heq
    exact needs_imported_loop_no_ignore env fobj.volumes heq
  · intro hcon; cases hcon
  · obtain ⟨v, hv⟩ := dispatch_master_ok env flag0 fobj ifname "MASTER" true false
      (tr ++ (needs_imported_loop env fobj.volumes).1 ++ [Call.validateCall])
    intro hcon
    rw [hv] at hcon
    cases hcon

/-- With the soft checks before it passing, `_event` does not ignore the
event (the result comes from the pool-readiness tail). -/
theorem _event_checks_pass_result (env : Env) (flag0 : Bool) (ifname ev : String)
    (hft : (ev == "forcetakeover") = false)
    (hdis : ((generate_failover_data env).1.disabled
      && !(generate_failover_data env).1.master) = false)
    (hnc : ((generate_failover_data env).1.non_crit_interfaces.filter
      (fun i => substrB i ifname)).isEmpty = true)
    (hrem : (env.remote_connected && (env.remote_status == "MASTER")) = false) :
    (_event env flag0 ifname ev).result ≠ .error .ignoreFailoverEvent := by
  unfold _event
  dsimp only
  rw [hft]
  simp only [Bool.false_eq_true, if_false, hdis, hnc, Bool.not_true]
  cases hc : env.remote_connected with
  | false =>
    simp only [Bool.false_eq_true, if_false]
    exact proceed_pools_no_ignore env flag0 _ ifname _
  | true =>
    have hrs : (env.remote_status == "MASTER") = false := by
      cases hs : (env.remote_status == "MASTER") with
      | false => rfl
      | true => rw [hc, hs] at hrem; cases hrem
    simp only [if_true, hrs, Bool.false_eq_true, if_false]
    exact proceed_pools_no_ignore env flag0 _ ifname _

/-- With the non-critical check firing, `_event` ignores the event with
only the snapshot queries in its trace. -/
theorem _event_noncrit_hit (env : Env) (flag0 : Bool) (ifname ev : String)
    (hft : (ev == "forcetakeover") = false)
    (hdis : ((generate_failover_data env).1.disabled
      && !(generate_failover_data env).1.master) = false)
    (hnc : ((generate_failover_data env).1.non_crit_interfaces.filter
      (fun i => substrB i ifname)).isEmpty = false) :
    _event env flag0 ifname ev
      = { result := .error .ignoreFailoverEvent,
          trace := (generate_failover_data env).2, flag := flag0 } := by
  unfold _event
  dsimp only
  rw [hft]
  simp only [Bool.false_eq_true, if_false, hdis, hnc, Bool.not_false, if_true]

/-- C7 (amended): under the soft checks before it passing, a non-forced
event is ignored by the orchestrator exactly when some member of the
non-critical set occurs as a substring of the event's interface name
(line 226 tests `i in ifname` on strings, so set membership is a
special case but not necessary), and an ignored event contributes no
mutating collaborator call. -/
theorem C7_non_crit_substring_iff (env : Env) (flag0 : Bool) (ifname ev : String)
    (hft : (ev == "forcetakeover") = false)
    (hdis : (env.config.disabled && !env.config.master) = false)
    (hrem : (env.remote_connected && (env.remote_status == "MASTER")) = false) :
    ((_event env flag0 ifname ev).result = .error .ignoreFailoverEvent
      ↔ ∃ i ∈ (fobj_of env).non_crit_interfaces, substrB i ifname = true)
    ∧ ((_event env flag0 ifname ev).result = .error .ignoreFailoverEvent
      → (_event env flag0 ifname ev).trace.filter mutates = []) := by
  have hdis' : ((generate_failover_data env).1.disabled
      && !(generate_failover_data env).1.master) = false := hdis
  cases hsplit : ((generate_failover_data env).1.non_crit_interfaces.filter
      (fun i => substrB i ifname)).isEmpty with
  | true =>
    have hres := _event_checks_pass_result env flag0 ifname ev hft hdis' hsplit hrem
    have hno : ∀ i ∈ (fobj_of env).non_crit_interfaces, ¬ substrB i ifname = true := by
      rw [List.isEmpty_iff, List.filter_eq_nil_iff] at hsplit
      exact hsplit
    constructor
    · constructor
      · intro h; exact absurd h hres
      · rintro ⟨i, hi, hs⟩; exact absurd hs (hno i hi)
    · intro h; exact absurd h hres
  | false =>
    have heq := _event_noncrit_hit env flag0 ifname ev hft hdis' hsplit
    have hex : ∃ i ∈ (fobj_of env).non_crit_interfaces, substrB i ifname = true := by
      rcases List.exists_mem_of_ne_nil _
          (fun hnil => by rw [List.isEmpty_iff.mpr hnil] at hsplit; cases hsplit)
        with ⟨i, hi⟩
      exact ⟨i, (List.mem_filter.mp hi).1, (List.mem_filter.mp hi).2⟩
    constructor
    · constructor
      · intro _; exact hex
      · intro _; rw [heq]
    · intro _; rw [heq]
      exact gtr_mutates_nil env

/-- Witness for C7 at a concrete input: with non-critical set `[eth1]`,
an event on eth1 itself is ignored with a query-only trace. -/
theorem C7_witness :
    (_event envNonCrit false "eth1" "MASTER").result = .error .ignoreFailoverEvent
    ∧ (_event envNonCrit false "eth1" "MASTER").trace.filter mutates = [] := by
  have h := C7_non_crit_substring_iff envNonCrit false "eth1" "MASTER"
    (by decide) (by decide) (by decide)
  have hig : (_event envNonCrit false "eth1" "MASTER").result
      = .error .ignoreFailoverEvent :=
    h.1.mpr ⟨"eth1", by decide, by decide⟩
  exact ⟨hig, h.2 hig⟩

/-- The only exception the non-critical restart loop can raise is the
`KeyError` on the missing `service` key. -/
theorem non_crit_restarts_keyerr (l : List SvcEntry) :
    ∀ e, non_crit_restarts l = .error e → e = .keyError "service" := by
  induction l with
  | nil => intro e h; cases h
  | cons j rest ih =>
    intro e h
    unfold non_crit_restarts at h
    split at h
    · injection h with h; exact h.symm
    · exact ih e h

/-- The only exception the post-import fan-out can raise is that
`KeyError`. -/
theorem post_import_err (env : Env) (svcs : List SvcEntry) :
    ∀ e, (post_import env svcs).2 = .error e → e = .keyError "service" := by
  intro e h
  unfold post_import at h
  dsimp only at h
  split at h
  · rename_i e' heq
    injection h with h
    rw [← h]
    exact non_crit_restarts_keyerr svcs e' heq
  · cases h

/-- `master_after_fence` neither raises the ignore exception nor sets
the job result to IGNORED. -/
theorem master_after_fence_not_ignored (env : Env) (flag0 : Bool) (fobj : FObj)
    (tr0 : List Call) (fe : Option Nat) :
    (master_after_fence env flag0 fobj tr0 fe).result ≠ .error .ignoreFailoverEvent
    ∧ (master_after_fence env flag0 fobj tr0 fe).jobResult ≠ some "IGNORED" := by
  unfold master_after_fence
  dsimp only
  split
  · exact ⟨fun h => Except.noConfusion h, fun h => Option.noConfusion h⟩
  · split
    · split
      · exact ⟨fun h => Except.noConfusion h,
          fun h => absurd (Option.some.inj h) (by decide)⟩
      · exact ⟨fun h => PyErr.noConfusion (Except.error.inj h),
          fun h => Option.noConfusion h⟩
    · split
      · exact ⟨fun h => PyErr.noConfusion (Except.error.inj h),
          fun h => absurd (Option.some.inj h) (by decide)⟩
      · split
        · rename_i e heq
          refine ⟨fun h => ?_, fun h => Option.noConfusion h⟩
          injection h with h
          rw [h] at heq
          exact absurd (post_import_err env fobj.services _ heq) (by decide)
        · exact ⟨fun h => Except.noConfusion h, fun h => Option.noConfusion h⟩

/-- A MASTER transition dispatched with forced fencing — which is how
`_event` always dispatches it — can neither raise the ignore exception
nor record an IGNORED result: the failover-group check lives only on
the non-forced fencing path. -/
theorem vrrp_master_forced_not_ignored (env : Env) (flag0 : Bool) (fobj : FObj)
    (ifname ev : String) (ft : Bool) :
    (vrrp_master env flag0 fobj ifname ev true ft).result
      ≠ .error .ignoreFailoverEvent
    ∧ (vrrp_master env flag0 fobj ifname ev true ft).jobResult ≠ some "IGNORED" := by
  unfold vrrp_master
  dsimp only
  rw [Bool.or_true]
  simp only [if_true]
  exact master_after_fence_not_ignored env flag0 fobj _ _

/-- C8: the status-refresh side call at the dispatch boundary fires
exactly when the event was not ignored — where, in this code, the only
ignores the boundary can observe are the ones `_event` itself raises
(HA-disabled, non-critical interface, peer-already-master): the
dispatched MASTER job always runs with forced fencing, so an
IgnoredEvent can never be raised inside the dispatched transition body
(third conjunct), making the claim's parenthetical case vacuous. -/
theorem C8_refresh_iff_not_ignored (env : Env) (flag0 : Bool) (ifname ev : String) :
    ((_event env flag0 ifname ev).result = .error .ignoreFailoverEvent
      → (event env flag0 ifname ev).trace = (_event env flag0 ifname ev).trace)
    ∧ ((_event env flag0 ifname ev).result ≠ .error .ignoreFailoverEvent
      → (event env flag0 ifname ev).trace
          = (_event env flag0 ifname ev).trace ++ [Call.statusRefresh])
    ∧ ∀ fobj ft,
        (vrrp_master env flag0 fobj ifname ev true ft).result
          ≠ .error .ignoreFailoverEvent
        ∧ (vrrp_master env flag0 fobj ifname ev true ft).jobResult
          ≠ some "IGNORED" := by
  refine ⟨?_, ?_, fun fobj ft =>
    vrrp_master_forced_not_ignored env flag0 fobj ifname ev ft⟩
  · intro h
    unfold event
    dsimp only
    rw [h]
  · intro h
    unfold event
    dsimp only
    cases hr : (_event env flag0 ifname ev).result with
    | error e =>
      cases e with
      | ignoreFailoverEvent => exact absurd hr h
      | zpoolExportTimeout => rfl
      | typeError msg => rfl
      | keyError key => rfl
      | unboundLocalError name => rfl
      | unsupportedOperation => rfl
    | ok v => rfl

/-- Witness for C8 at a concrete input: a non-ignored event is followed
by the boundary status refresh. -/
theorem C8_witness :
    (event envBase false "em0" "MASTER").trace
      = (_event envBase false "em0" "MASTER").trace ++ [Call.statusRefresh] := by
  exact (C8_refresh_iff_not_ignored envBase false "em0" "MASTER").2.1 (by decide)

end FailoverEvents
